import Mathlib

/-
Verification of the DuckDuckGo web-search tool
(src/packages/core/src/tools/duckduckgo-search.ts).

The tool is a pure request/response adapter: it validates a query,
optionally calls an external search provider, and formats the outcome
into a ToolResult.  We embed it shallowly: the provider is a function
from its call arguments to an outcome, the cancellation signal is a
boolean sampled at entry, and execute additionally returns the list of
provider calls it made, so that claims about when and how the provider
is invoked become statements about that list.
-/

/-- A raw result from the external search provider
(interface SearchResult: title, href, body). -/
structure SearchResult where
  title : String
  href : String
  body : String
deriving DecidableEq, Repr

/-- The value returned by execute (DuckDuckGoSearchToolResult):
llmContent, returnDisplay, and an optional list of sources. -/
structure ToolResult where
  llmContent : String
  returnDisplay : String
  sources : Option (List SearchResult)
deriving DecidableEq, Repr

/-- The arguments passed to the provider call
(ddgs.text with keywords, safesearch, maxResults). -/
structure ProviderCall where
  keywords : String
  safesearch : String
  maxResults : Nat
deriving DecidableEq, Repr

/-- Outcome of the provider call: success carries the resolved value,
which is either a list of results or null/undefined (modelled as
Option.none); failure carries the error message that getErrorMessage
would extract. -/
inductive ProviderOutcome where
  | success (results : Option (List SearchResult)) : ProviderOutcome
  | failure (message : String) : ProviderOutcome
deriving DecidableEq, Repr

/-- JavaScript String.prototype.trim: strip leading and trailing
whitespace characters. -/
def jsTrim (s : String) : String :=
  String.mk (((s.data.dropWhile Char.isWhitespace).reverse.dropWhile
    Char.isWhitespace).reverse)

/-- validateToolParams: the structural schema check is external
(SchemaValidator.validate), so its result is an input; if it reports
errors they are returned.  Otherwise the query is rejected with a fixed
message when it is empty or trims to empty (the source tests
`not params.query or params.query.trim() = empty`). -/
def validateToolParams (schemaErrors : Option String) (query : String) :
    Option String :=
  match schemaErrors with
  | some errs => some errs
  | none =>
      if query = "" || jsTrim query = "" then
        some "The \x27query\x27 parameter cannot be empty."
      else
        none

/-- The arguments execute passes to the provider:
keywords = the query, safesearch off, maxResults 5. -/
def providerCallArgs (query : String) : ProviderCall :=
  { keywords := query, safesearch := "off", maxResults := 5 }

/-- Per-result block appended to formattedResults inside the forEach:
index is 1-based; title, href and body fall back to fixed strings when
empty (the source uses JavaScript or-fallbacks, which trigger on the
empty string). -/
def resultBlock (idx : Nat) (r : SearchResult) : String :=
  let title := if r.title = "" then "Untitled" else r.title
  let url := if r.href = "" then "No URL" else r.href
  let snippet := if r.body = "" then "No description" else r.body
  toString idx ++ ". " ++ title ++ "\n"
    ++ "   URL: " ++ url ++ "\n"
    ++ "   Snippet: " ++ snippet ++ "\n\n"

/-- Per-result line pushed onto sourceListFormatted inside the forEach.
Note the source reuses the fallback values title and url here, not the
raw fields. -/
def sourceLine (idx : Nat) (r : SearchResult) : String :=
  let title := if r.title = "" then "Untitled" else r.title
  let url := if r.href = "" then "No URL" else r.href
  "[" ++ toString idx ++ "] " ++ title ++ " (" ++ url ++ ")"

/-- JavaScript Array.prototype.join with a separator. -/
def joinWith (sep : String) : List String → String
  | [] => ""
  | [s] => s
  | s :: rest => s ++ sep ++ joinWith sep rest

/-- The results.forEach loop of execute: walks the results with a
1-based index, accumulating the formatted blocks (as one string, in
order) and the source lines (as a list, in order). -/
def formatResultsLoop (idx : Nat) : List SearchResult → String × List String
  | [] => ("", [])
  | r :: rest =>
      let tail := formatResultsLoop (idx + 1) rest
      (resultBlock idx r ++ tail.1, sourceLine idx r :: tail.2)

/-- llmContent on the success path: header, the accumulated blocks,
then the Sources section. -/
def successLlm (query : String) (rs : List SearchResult) : String :=
  let header := "DuckDuckGo search results for \"" ++ query ++ "\":\n\n"
  let fs := formatResultsLoop 1 rs
  header ++ fs.1 ++ ("\nSources:\n" ++ joinWith "\n" fs.2)

/-- The errorMessage built in the catch block. -/
def errorMessageFor (query msg : String) : String :=
  "Error during DuckDuckGo web search for query \"" ++ query ++ "\": " ++ msg

/-- The ToolResult returned from the catch block. -/
def errorResult (query msg : String) : ToolResult :=
  { llmContent := "Error: " ++ errorMessageFor query msg
  , returnDisplay := "Error performing DuckDuckGo web search."
  , sources := none }

/-- The ToolResult returned when results is null/undefined or empty. -/
def noResultsResult (query : String) : ToolResult :=
  { llmContent := "No search results found for query: \"" ++ query ++ "\""
  , returnDisplay := "No information found."
  , sources := none }

/-- The ToolResult returned on the success path with formatted results
and the raw provider results as sources. -/
def successResult (query : String) (rs : List SearchResult) : ToolResult :=
  { llmContent := successLlm query rs
  , returnDisplay := "Search results for \"" ++ query ++ "\" returned."
  , sources := some rs }

/-- DuckDuckGoSearchTool.execute.  Inputs: the structural-validation
outcome, the query, whether the abort signal is already aborted at
entry, and the provider as a function of its call arguments.  Returns
the ToolResult together with the list of provider calls made.  The
source throws Error("Search was cancelled") when the signal is aborted,
which the catch block turns into the error result with that message. -/
def execute (schemaErrors : Option String) (query : String) (aborted : Bool)
    (provider : ProviderCall → ProviderOutcome) :
    ToolResult × List ProviderCall :=
  match validateToolParams schemaErrors query with
  | some validationError =>
      ({ llmContent :=
           "Error: Invalid parameters provided. Reason: " ++ validationError
       , returnDisplay := validationError
       , sources := none }, [])
  | none =>
      if aborted then
        (errorResult query "Search was cancelled", [])
      else
        let call := providerCallArgs query
        match provider call with
        | ProviderOutcome.failure msg => (errorResult query msg, [call])
        | ProviderOutcome.success results =>
            match results with
            | none => (noResultsResult query, [call])
            | some rs =>
                if rs.length = 0 then (noResultsResult query, [call])
                else (successResult query rs, [call])

/-- Concatenation of a list of strings, in order. -/
def concatList : List String → String
  | [] => ""
  | s :: rest => s ++ concatList rest

/-- The source line as the claim literally states it: raw title and
href without fallbacks. -/
def rawSourceLine (idx : Nat) (r : SearchResult) : String :=
  "[" ++ toString idx ++ "] " ++ r.title ++ " (" ++ r.href ++ ")"

/-- llmContent as claim C1 literally states it: header, 1-indexed
blocks, then Sources lines built from the raw title and href. -/
def claimSuccessLlmRaw (query : String) (rs : List SearchResult) : String :=
  "DuckDuckGo search results for \"" ++ query ++ "\":\n\n"
    ++ concatList ((rs.enumFrom 1).map fun p => resultBlock p.1 p.2)
    ++ "\nSources:\n"
    ++ joinWith "\n" ((rs.enumFrom 1).map fun p => rawSourceLine p.1 p.2)

/-- llmContent as claim C1 states it, amended only in the Sources
lines, which use the same fallbacks as the blocks. -/
def claimSuccessLlm (query : String) (rs : List SearchResult) : String :=
  "DuckDuckGo search results for \"" ++ query ++ "\":\n\n"
    ++ concatList ((rs.enumFrom 1).map fun p => resultBlock p.1 p.2)
    ++ "\nSources:\n"
    ++ joinWith "\n" ((rs.enumFrom 1).map fun p => sourceLine p.1 p.2)

/-- The two provider results used by the unit tests of the tool. -/
def testResults : List SearchResult :=
  [ { title := "Test Result 1", href := "https://example.com/1"
    , body := "This is a test result snippet 1" }
  , { title := "Test Result 2", href := "https://example.com/2"
    , body := "This is a test result snippet 2" } ]

/-- A provider that always resolves to the test results. -/
def testProvider : ProviderCall → ProviderOutcome :=
  fun _ => ProviderOutcome.success (some testResults)

/-- A provider that resolves to the test results only for calls with
the fixed cap of 5 and fails on any other call. -/
def cappedProvider : ProviderCall → ProviderOutcome :=
  fun c =>
    if c.maxResults = 5 then ProviderOutcome.success (some testResults)
    else ProviderOutcome.failure "unexpected call"

lemma str_append_assoc (a b c : String) : a ++ b ++ c = a ++ (b ++ c) :=
  String.append_assoc a b c

lemma formatResultsLoop_spec (rs : List SearchResult) : ∀ k : Nat,
    formatResultsLoop k rs =
      (concatList ((rs.enumFrom k).map fun p => resultBlock p.1 p.2),
       (rs.enumFrom k).map fun p => sourceLine p.1 p.2) := by
  induction rs with
  | nil => intro k; rfl
  | cons r rest ih =>
      intro k
      simp [formatResultsLoop, List.enumFrom, concatList, ih (k + 1)]

lemma error_llm_flat (q msg : String) :
    "Error: " ++ errorMessageFor q msg =
      "Error: Error during DuckDuckGo web search for query \"" ++ q
        ++ "\": " ++ msg := by
  unfold errorMessageFor
  rw [← str_append_assoc, ← str_append_assoc, ← str_append_assoc]
  rfl

/-- C4: when the structural schema check passes, validateToolParams
returns no error exactly when the query is non-empty after trimming
whitespace, and otherwise returns exactly the fixed empty-query
message. -/
theorem validateToolParams_spec (query : String) :
    validateToolParams none query =
      if jsTrim query = "" then
        some "The \x27query\x27 parameter cannot be empty."
      else none := by
  unfold validateToolParams
  by_cases h : query = ""
  · subst h; decide
  · simp [h]

/-- C6: when validation fails with message m, execute returns
immediately with llmContent the invalid-parameters prefix followed by
m, returnDisplay m verbatim, and makes no provider call. -/
theorem execute_invalid_params (se : Option String) (q : String) (ab : Bool)
    (p : ProviderCall → ProviderOutcome) (m : String)
    (hv : validateToolParams se q = some m) :
    execute se q ab p =
      ({ llmContent := "Error: Invalid parameters provided. Reason: " ++ m
       , returnDisplay := m
       , sources := none }, []) := by
  unfold execute
  rw [hv]

theorem execute_invalid_params_witness :
    execute none "" false (fun _ => ProviderOutcome.failure "x") =
      ({ llmContent := "Error: Invalid parameters provided. Reason: "
           ++ "The \x27query\x27 parameter cannot be empty."
       , returnDisplay := "The \x27query\x27 parameter cannot be empty."
       , sources := none }, []) :=
  execute_invalid_params none "" false
    (fun _ => ProviderOutcome.failure "x")
    "The \x27query\x27 parameter cannot be empty." (by decide)

/-- C3: when validation passes and the provider call fails with
message msg, execute resolves (it is a total function into ToolResult,
so the failure is not propagated) to the error result whose llmContent
embeds the query and msg, with the fixed error returnDisplay. -/
theorem execute_provider_failure (se : Option String) (q msg : String)
    (p : ProviderCall → ProviderOutcome)
    (hv : validateToolParams se q = none)
    (hp : p (providerCallArgs q) = ProviderOutcome.failure msg) :
    (execute se q false p).1.llmContent =
      "Error: Error during DuckDuckGo web search for query \"" ++ q
        ++ "\": " ++ msg ∧
    (execute se q false p).1.returnDisplay =
      "Error performing DuckDuckGo web search." := by
  unfold execute
  rw [hv]
  simp only [Bool.false_eq_true, if_false, hp]
  exact ⟨error_llm_flat q msg, rfl⟩

theorem execute_provider_failure_witness :
    (execute none "error search" false
        (fun _ => ProviderOutcome.failure "Network error")).1.llmContent =
      "Error: Error during DuckDuckGo web search for query \""
        ++ "error search" ++ "\": " ++ "Network error" ∧
    (execute none "error search" false
        (fun _ => ProviderOutcome.failure "Network error")).1.returnDisplay =
      "Error performing DuckDuckGo web search." :=
  execute_provider_failure none "error search" "Network error"
    (fun _ => ProviderOutcome.failure "Network error") (by decide) rfl

/-- C5: when validation passes and the signal is already aborted at
entry, no provider call is made and the result has the provider-failure
shape, with the cancellation message embedded in llmContent. -/
theorem execute_aborted (se : Option String) (q : String)
    (p : ProviderCall → ProviderOutcome)
    (hv : validateToolParams se q = none) :
    (execute se q true p).2 = [] ∧
    (execute se q true p).1.llmContent =
      "Error: Error during DuckDuckGo web search for query \"" ++ q
        ++ "\": Search was cancelled" ∧
    (execute se q true p).1.returnDisplay =
      "Error performing DuckDuckGo web search." := by
  unfold execute
  rw [hv]
  refine ⟨rfl, ?_, rfl⟩
  show "Error: " ++ errorMessageFor q "Search was cancelled" = _
  rw [error_llm_flat q "Search was cancelled", str_append_assoc]
  rfl

theorem execute_aborted_witness :
    (execute none "test" true (fun _ => ProviderOutcome.failure "x")).2 = [] ∧
    (execute none "test" true
        (fun _ => ProviderOutcome.failure "x")).1.llmContent =
      "Error: Error during DuckDuckGo web search for query \"" ++ "test"
        ++ "\": Search was cancelled" ∧
    (execute none "test" true
        (fun _ => ProviderOutcome.failure "x")).1.returnDisplay =
      "Error performing DuckDuckGo web search." :=
  execute_aborted none "test" (fun _ => ProviderOutcome.failure "x") (by decide)

/-- C7: when validation passes and the signal is not aborted, the
provider is invoked exactly once, with keywords the query, safesearch
off, and maxResults 5, whatever the query and whatever the provider
returns. -/
theorem execute_provider_call_args (se : Option String) (q : String)
    (p : ProviderCall → ProviderOutcome)
    (hv : validateToolParams se q = none) :
    (execute se q false p).2 =
      [{ keywords := q, safesearch := "off", maxResults := 5 }] := by
  unfold execute
  rw [hv]
  simp only [Bool.false_eq_true, if_false]
  cases hp : p (providerCallArgs q) with
  | failure msg => rfl
  | success results =>
      cases results with
      | none => rfl
      | some rs =>
          by_cases h : rs.length = 0 <;> simp [h, providerCallArgs]

theorem execute_provider_call_args_witness :
    (execute none "any query" false
        (fun _ => ProviderOutcome.success none)).2 =
      [{ keywords := "any query", safesearch := "off", maxResults := 5 }] :=
  execute_provider_call_args none "any query"
    (fun _ => ProviderOutcome.success none) (by decide)

/-- C8: when validation passes and the provider resolves to an empty
list, execute returns the no-results llmContent for the query, the
fixed no-information returnDisplay, and no sources field. -/
theorem execute_empty_results (se : Option String) (q : String)
    (p : ProviderCall → ProviderOutcome)
    (hv : validateToolParams se q = none)
    (hp : p (providerCallArgs q) = ProviderOutcome.success (some [])) :
    (execute se q false p).1 =
      { llmContent := "No search results found for query: \"" ++ q ++ "\""
      , returnDisplay := "No information found."
      , sources := none } := by
  unfold execute
  rw [hv]
  simp only [Bool.false_eq_true, if_false, hp]
  rfl

theorem execute_empty_results_witness :
    (execute none "empty search" false
        (fun _ => ProviderOutcome.success (some []))).1 =
      { llmContent := "No search results found for query: \""
          ++ "empty search" ++ "\""
      , returnDisplay := "No information found."
      , sources := none } :=
  execute_empty_results none "empty search"
    (fun _ => ProviderOutcome.success (some [])) (by decide) rfl

/-- C10: when validation passes and the provider resolves to
null/undefined instead of a list, execute returns exactly the same
no-results outcome as for an empty list: no-results llmContent, fixed
no-information returnDisplay, no sources field. -/
theorem execute_null_results (se : Option String) (q : String)
    (p : ProviderCall → ProviderOutcome)
    (hv : validateToolParams se q = none)
    (hp : p (providerCallArgs q) = ProviderOutcome.success none) :
    (execute se q false p).1 =
      { llmContent := "No search results found for query: \"" ++ q ++ "\""
      , returnDisplay := "No information found."
      , sources := none } := by
  unfold execute
  rw [hv]
  simp only [Bool.false_eq_true, if_false, hp]
  rfl

theorem execute_null_results_witness :
    (execute none "null search" false
        (fun _ => ProviderOutcome.success none)).1 =
      { llmContent := "No search results found for query: \""
          ++ "null search" ++ "\""
      , returnDisplay := "No information found."
      , sources := none } :=
  execute_null_results none "null search"
    (fun _ => ProviderOutcome.success none) (by decide) rfl

/-- C9: execute is deterministic in the query and the provider answer:
two invocations with the same query whose providers give the same
answer to the call produce byte-identical llmContent and
returnDisplay. -/
theorem execute_deterministic (se : Option String) (q : String) (ab : Bool)
    (p p2 : ProviderCall → ProviderOutcome)
    (h : p (providerCallArgs q) = p2 (providerCallArgs q)) :
    (execute se q ab p).1.llmContent = (execute se q ab p2).1.llmContent ∧
    (execute se q ab p).1.returnDisplay =
      (execute se q ab p2).1.returnDisplay := by
  have heq : execute se q ab p = execute se q ab p2 := by
    unfold execute
    cases hv : validateToolParams se q with
    | some m => rfl
    | none =>
        cases ab with
        | true => rfl
        | false => simp only [h]
  rw [heq]
  exact ⟨rfl, rfl⟩

theorem execute_deterministic_witness :
    (execute none "test search" false testProvider).1.llmContent =
      (execute none "test search" false cappedProvider).1.llmContent ∧
    (execute none "test search" false testProvider).1.returnDisplay =
      (execute none "test search" false cappedProvider).1.returnDisplay :=
  execute_deterministic none "test search" false testProvider cappedProvider
    (by decide)

/-- C2: the sources field of the result equals the raw provider
results exactly when validation passed, the signal was not aborted,
and the provider resolved to a non-empty list of results; on the
validation-error, provider-failure, null and zero-results paths it is
absent. -/
theorem execute_sources_iff (se : Option String) (q : String) (ab : Bool)
    (p : ProviderCall → ProviderOutcome) (rs : List SearchResult) :
    (execute se q ab p).1.sources = some rs ↔
      (validateToolParams se q = none ∧ ab = false ∧
       p (providerCallArgs q) = ProviderOutcome.success (some rs) ∧
       rs ≠ []) := by
  constructor
  · intro h
    unfold execute at h
    cases hv : validateToolParams se q with
    | some m => rw [hv] at h; simp at h
    | none =>
        rw [hv] at h
        cases ab with
        | true => simp [errorResult] at h
        | false =>
            simp only [Bool.false_eq_true, if_false] at h
            cases hp : p (providerCallArgs q) with
            | failure m => rw [hp] at h; simp [errorResult] at h
            | success results =>
                rw [hp] at h
                cases results with
                | none => simp [noResultsResult] at h
                | some rs2 =>
                    cases rs2 with
                    | nil => simp [noResultsResult] at h
                    | cons r rest =>
                        simp [successResult] at h
                        subst h
                        exact ⟨rfl, rfl, rfl, by simp⟩
  · rintro ⟨hv, hab, hp, hne⟩
    subst hab
    unfold execute
    rw [hv]
    simp only [Bool.false_eq_true, if_false, hp]
    cases rs with
    | nil => exact absurd rfl hne
    | cons r rest => simp [successResult]

lemma successLlm_eq_claim (q : String) (rs : List SearchResult) :
    successLlm q rs = claimSuccessLlm q rs := by
  unfold successLlm claimSuccessLlm
  rw [formatResultsLoop_spec rs 1]
  rw [← str_append_assoc]

/-- C1 counterexample: a result whose title and href are empty.  The
code builds the Sources line from the fallback values, giving
"[1] Untitled (No URL)", while the claim prescribes the raw title and
href, giving "[1]  ()".  The resulting llmContent differs. -/
theorem execute_success_raw_sources_cex :
    (execute none "q" false (fun _ => ProviderOutcome.success
        (some [{ title := "", href := "", body := "" }]))).1.llmContent ≠
      claimSuccessLlmRaw "q" [{ title := "", href := "", body := "" }] := by
  decide

/-- C1 (amended): when validation passes and the provider resolves to
a non-empty list, llmContent is the header, the 1-indexed blocks with
Untitled / No URL / No description fallbacks, and the Sources section
whose lines carry the same Untitled / No URL fallbacks; returnDisplay
is the fixed success line for the query; sources is the raw provider
list, unmodified and in order. -/
theorem execute_success_formats (se : Option String) (q : String)
    (rs : List SearchResult) (p : ProviderCall → ProviderOutcome)
    (hv : validateToolParams se q = none)
    (hp : p (providerCallArgs q) = ProviderOutcome.success (some rs))
    (hne : rs ≠ []) :
    (execute se q false p).1.llmContent = claimSuccessLlm q rs ∧
    (execute se q false p).1.returnDisplay =
      "Search results for \"" ++ q ++ "\" returned." ∧
    (execute se q false p).1.sources = some rs := by
  unfold execute
  rw [hv]
  simp only [Bool.false_eq_true, if_false, hp]
  cases rs with
  | nil => exact absurd rfl hne
  | cons r rest =>
      simp only [List.length_cons, Nat.succ_ne_zero, if_false]
      exact ⟨successLlm_eq_claim q (r :: rest), rfl, rfl⟩

theorem execute_success_formats_witness :
    (execute none "test search" false testProvider).1.llmContent =
      claimSuccessLlm "test search" testResults ∧
    (execute none "test search" false testProvider).1.returnDisplay =
      "Search results for \"" ++ "test search" ++ "\" returned." ∧
    (execute none "test search" false testProvider).1.sources =
      some testResults :=
  execute_success_formats none "test search" testResults testProvider
    (by decide) rfl (by decide)
